import Mathlib

/-!
Verification development for the Event_Finder server (storage layer in
`server/storage.ts` (MemStorage) and `server/pgStorage.ts` (PgStorage),
route layer in `server/routes.ts`, schema in `shared/schema.ts`).

Modelling conventions:
* JavaScript numbers used as coordinates/distances are modelled as `ℚ` for the
  list-level operations; the transcendental haversine helper is modelled over
  `ℝ` separately (see `calculateDistance`).
* Timestamps (`Date`, `createdAt`) are abstract `Int` ticks; the storage state
  carries a clock `now` standing for `new Date()`.
* `Map<number, T>` is a list of rows together with `Map.set`/`Map.delete`
  semantics (`mapSetEvent`, keys unique by construction).
* `undefined` results are `Option.none`; JS field access on `undefined`
  (a thrown TypeError) is propagated as `none` of the whole operation.
* Database rows (PgStorage) are lists; `db.select().where(eq ...)` is
  `List.filter`, `result[0]` is `List.head?`, `insert ... returning` appends a
  row with the next serial id.
-/

/-- A user row (`users` table / `User` in `shared/schema.ts`); `avatar` is
nullable. -/
structure User where
  id : Int
  username : String
  password : String
  email : String
  name : String
  avatar : Option String
  createdAt : Int
deriving DecidableEq

/-- An event row (`events` table / `Event` in `shared/schema.ts`).
`latitude`/`longitude` are `ℚ` (JS float idealisation); `distanceInMiles` is
the transient nullable field attached by the near-location queries. -/
structure Event where
  id : Int
  title : String
  description : String
  location : String
  address : String
  latitude : ℚ
  longitude : ℚ
  date : Int
  endDate : Option Int
  categoryId : String
  price : Option Int
  isFree : Bool
  imageUrl : Option String
  hostId : Int
  isOnline : Bool
  createdAt : Int
  distanceInMiles : Option ℚ
deriving DecidableEq

/-- An attendee row (`attendees` table). -/
structure Attendee where
  id : Int
  userId : Int
  eventId : Int
  createdAt : Int
deriving DecidableEq

/-- The `{id, name, avatar}` user summary used for hosts and attendee lists. -/
structure UserSummary where
  id : Int
  name : String
  avatar : String
deriving DecidableEq

/-- The denormalised `EventWithAttendees` view: an `Event` enriched with the
attendee count, attendee summaries and the host summary. The TS type is an
intersection `Event & {...}`; we keep the event part as a field. -/
structure EventWithAttendees where
  event : Event
  attendees : Int
  attendeesList : List UserSummary
  host : UserSummary
deriving DecidableEq

/-- `InsertEvent` payload (insert schema: `events` minus `id`, `createdAt`,
distance column); fields with schema defaults or nullable columns are
optional. -/
structure InsertEvent where
  title : String
  description : String
  location : String
  address : String
  latitude : ℚ
  longitude : ℚ
  date : Int
  endDate : Option Int
  categoryId : String
  price : Option Int
  isFree : Option Bool
  imageUrl : Option String
  hostId : Int
  isOnline : Option Bool
deriving DecidableEq

/-- `InsertAttendee` payload (`userId`, `eventId`). -/
structure InsertAttendee where
  userId : Int
  eventId : Int
deriving DecidableEq

/-- JS `String.prototype.toLowerCase()` restricted to its ASCII behaviour
(every character lowercased individually). -/
def jsToLower (s : String) : String := ⟨s.data.map Char.toLower⟩

/-- JS `haystack.startsWith(needle)` on character lists. -/
def jsStartsWith : List Char → List Char → Bool
  | _, [] => true
  | [], _ :: _ => false
  | c :: s, p :: ps => c == p && jsStartsWith s ps

/-- JS `haystack.includes(needle)` (substring containment) on character
lists. -/
def jsIncludes : List Char → List Char → Bool
  | s, sub =>
    jsStartsWith s sub ||
      match s with
      | [] => false
      | _ :: s2 => jsIncludes s2 sub

/-- JS `x || ''` on a nullable string: `null`/`undefined` become `''`. -/
def orEmpty (s : Option String) : String := s.getD ""

/-- The user summary `{id: u.id, name: u.name, avatar: u.avatar || ''}`. -/
def summaryOf (u : User) : UserSummary := ⟨u.id, u.name, orEmpty u.avatar⟩

/-- In-memory state of `MemStorage`: the three `Map`s (as row lists with
unique keys), the three id counters, and the clock standing for
`new Date()`. -/
structure MemState where
  users : List User
  events : List Event
  attendees : List Attendee
  userId : Int
  eventId : Int
  attendeeId : Int
  now : Int
deriving DecidableEq

/-- JS `Map.set(e.id, e)` on the events list: replace the entry with the same
key in place, otherwise append. -/
def mapSetEvent (l : List Event) (e : Event) : List Event :=
  if l.any (fun x => x.id == e.id) then
    l.map (fun x => if x.id == e.id then e else x)
  else l ++ [e]

namespace MemStorage

/-- `MemStorage.getEvent`: look the event up; `undefined` if absent; collect
its attendee rows; resolve the host (`undefined` if the host is missing);
resolve each attendee's user, dropping unresolvable ones
(`.map(...).filter(Boolean)`). -/
def getEvent (st : MemState) (id : Int) : Option EventWithAttendees :=
  match st.events.find? (fun e => e.id == id) with
  | none => none
  | some event =>
    let eventAttendees := st.attendees.filter (fun a => a.eventId == id)
    match st.users.find? (fun u => u.id == event.hostId) with
    | none => none
    | some host =>
      let attendeeUsers := eventAttendees.filterMap (fun a =>
        (st.users.find? (fun u => u.id == a.userId)).map summaryOf)
      some { event := event
             attendees := eventAttendees.length
             attendeesList := attendeeUsers
             host := summaryOf host }

/-- `MemStorage.getAllEvents`: every stored event mapped through `getEvent`.
The TS code casts away the `undefined` case (`as Promise<EventWithAttendees>`),
so at runtime the array may contain `undefined` entries; we keep them as
`none`. -/
def getAllEvents (st : MemState) : List (Option EventWithAttendees) :=
  st.events.map (fun event => getEvent st event.id)

/-- `MemStorage.getEventsByCategory`: the sentinel `'All'` falls through to
`getAllEvents`; otherwise filter by exact `categoryId` match and enrich. -/
def getEventsByCategory (st : MemState) (categoryId : String) :
    List (Option EventWithAttendees) :=
  if categoryId == "All" then getAllEvents st
  else
    ((st.events.filter (fun event => event.categoryId == categoryId)).map
      (fun event => getEvent st event.id))

/-- `MemStorage.searchEvents`: case-insensitive substring match of the query
over title, description and location (OR), then enrich each match. -/
def searchEvents (st : MemState) (query : String) :
    List (Option EventWithAttendees) :=
  let lowercaseQuery := jsToLower query
  let matched := st.events.filter (fun event =>
    jsIncludes (jsToLower event.title).data lowercaseQuery.data ||
    jsIncludes (jsToLower event.description).data lowercaseQuery.data ||
    jsIncludes (jsToLower event.location).data lowercaseQuery.data)
  matched.map (fun event => getEvent st event.id)

/-- `MemStorage.createEvent`: allocate the next event id, fill defaulted
fields (`?? null`, `?? false`), store, and return the raw event. -/
def createEvent (st : MemState) (insertEvent : InsertEvent) :
    Event × MemState :=
  let id := st.eventId
  let event : Event :=
    { id := id
      title := insertEvent.title
      description := insertEvent.description
      location := insertEvent.location
      address := insertEvent.address
      latitude := insertEvent.latitude
      longitude := insertEvent.longitude
      date := insertEvent.date
      endDate := insertEvent.endDate
      categoryId := insertEvent.categoryId
      price := insertEvent.price
      isFree := insertEvent.isFree.getD false
      imageUrl := insertEvent.imageUrl
      hostId := insertEvent.hostId
      isOnline := insertEvent.isOnline.getD false
      createdAt := st.now
      distanceInMiles := none }
  (event, { st with events := mapSetEvent st.events event
                    eventId := st.eventId + 1 })

/-- `MemStorage.deleteEvent`: `this.events.delete(id)` only — the event row is
removed and the boolean says whether it existed; attendee rows are NOT
touched. -/
def deleteEvent (st : MemState) (id : Int) : Bool × MemState :=
  (st.events.any (fun e => e.id == id),
   { st with events := st.events.filter (fun e => !(e.id == id)) })

/-- `MemStorage.getEventAttendees`: raw attendee rows for the event. -/
def getEventAttendees (st : MemState) (eventId : Int) : List Attendee :=
  st.attendees.filter (fun attendee => attendee.eventId == eventId)

/-- `MemStorage.createAttendee`: allocate the next attendee id and append. -/
def createAttendee (st : MemState) (ia : InsertAttendee) :
    Attendee × MemState :=
  let attendee : Attendee :=
    { id := st.attendeeId, userId := ia.userId, eventId := ia.eventId
      createdAt := st.now }
  (attendee, { st with attendees := st.attendees ++ [attendee]
                       attendeeId := st.attendeeId + 1 })

/-- `MemStorage.isUserAttending`: existence check on the pair. -/
def isUserAttending (st : MemState) (userId eventId : Int) : Bool :=
  st.attendees.any (fun a => a.userId == userId && a.eventId == eventId)

end MemStorage

/-- Database state backing `PgStorage`: the three tables as row lists, the
serial-id counters, and the clock. -/
structure PgState where
  users : List User
  events : List Event
  attendees : List Attendee
  nextUserId : Int
  nextEventId : Int
  nextAttendeeId : Int
  now : Int
deriving DecidableEq

/-- Helper for the `%` wildcard of SQL `LIKE`: does the rest of the pattern
(decided by `f`) match some suffix of the string? -/
def likeStar (f : List Char → Bool) : List Char → Bool
  | [] => f []
  | c :: s2 => f (c :: s2) || likeStar f s2

/-- SQL `LIKE` pattern matching (PostgreSQL semantics, case-sensitive):
`%` matches any sequence, `_` any single character, the default escape
character `\` makes the following pattern character match only its literal
self, any other pattern character matches only its exact self, and the
pattern must cover the whole string. A pattern ending in a lone escape
character is an error in PostgreSQL ("LIKE pattern must not end with escape
character"); it is modelled as matching nothing, and cannot arise from the
`'%' ++ q ++ '%'` patterns built by `searchEvents`. Models drizzle's
`like(column, pattern)`. -/
def likeMatch : List Char → List Char → Bool
  | [], s => s.isEmpty
  | p :: ps, s =>
    if p = '%' then likeStar (likeMatch ps) s
    else if p = '\\' then
      match ps, s with
      | [], _ => false
      | _ :: _, [] => false
      | q :: ps2, c :: s2 => q == c && likeMatch ps2 s2
    else
      match s with
      | [] => false
      | c :: s2 => (if p = '_' then true else p == c) && likeMatch ps s2

namespace PgStorage

/-- `db.select().from(users).where(eq(users.id, id))` then `result[0]`. -/
def getUser (st : PgState) (id : Int) : Option User :=
  (st.users.filter (fun u => u.id == id)).head?

/-- `PgStorage.getUserByUsername`. -/
def getUserByUsername (st : PgState) (username : String) : Option User :=
  (st.users.filter (fun u => u.username == username)).head?

/-- `PgStorage.getFormattedAttendees`: attendee rows of the event, each mapped
to its user summary or `null` when the user is missing, nulls filtered out. -/
def getFormattedAttendees (st : PgState) (eventId : Int) : List UserSummary :=
  (st.attendees.filter (fun a => a.eventId == eventId)).filterMap
    (fun attendee =>
      ((st.users.filter (fun u => u.id == attendee.userId)).head?).map
        summaryOf)

/-- The host lookup shared by the list operations: the host's summary, or the
placeholder `{id: 0, name: 'Unknown', avatar: ''}` when the `hostId` does not
resolve. -/
def hostSummary (st : PgState) (hostId : Int) : UserSummary :=
  match (st.users.filter (fun u => u.id == hostId)).head? with
  | some u => summaryOf u
  | none => ⟨0, "Unknown", ""⟩

/-- The per-event mapping body shared verbatim by `getAllEvents`,
`getEventsByCategory` and `searchEvents`: attach attendee list/count and the
host summary (placeholder when unresolvable). -/
def enrichEvent (st : PgState) (event : Event) : EventWithAttendees :=
  let attendeesList := getFormattedAttendees st event.id
  { event := event
    attendees := attendeesList.length
    attendeesList := attendeesList
    host := hostSummary st event.hostId }

/-- `PgStorage.getEvent`: fetch the row (`undefined` if absent), format the
attendees, fetch the host row — `undefined` if the host is missing. Unlike
the list operations there is no placeholder host here. -/
def getEvent (st : PgState) (id : Int) : Option EventWithAttendees :=
  match (st.events.filter (fun e => e.id == id)).head? with
  | none => none
  | some event =>
    let attendeesList := getFormattedAttendees st id
    match (st.users.filter (fun u => u.id == event.hostId)).head? with
    | none => none
    | some h =>
      some { event := event
             attendees := attendeesList.length
             attendeesList := attendeesList
             host := summaryOf h }

/-- `PgStorage.getAllEvents`: all rows, each enriched (placeholder host when
unresolvable). -/
def getAllEvents (st : PgState) : List EventWithAttendees :=
  st.events.map (enrichEvent st)

/-- `PgStorage.getEventsByCategory`: `'All'` falls through to `getAllEvents`;
otherwise `where(eq(events.categoryId, categoryId))`, each row enriched. -/
def getEventsByCategory (st : PgState) (categoryId : String) :
    List EventWithAttendees :=
  if categoryId == "All" then getAllEvents st
  else (st.events.filter (fun event => event.categoryId == categoryId)).map
    (enrichEvent st)

/-- `PgStorage.searchEvents`: SQL `LIKE '%query%'` (case-sensitive) over
title, description and location with OR semantics, each row enriched. -/
def searchEvents (st : PgState) (query : String) : List EventWithAttendees :=
  let searchPattern := "%" ++ query ++ "%"
  let searchResults := st.events.filter (fun event =>
    likeMatch searchPattern.data event.title.data ||
    likeMatch searchPattern.data event.description.data ||
    likeMatch searchPattern.data event.location.data)
  searchResults.map (enrichEvent st)

/-- `PgStorage.createEvent`: `insert ... returning`; the serial column hands
out the next id, column defaults fill the optional fields. -/
def createEvent (st : PgState) (insertEvent : InsertEvent) :
    Event × PgState :=
  let event : Event :=
    { id := st.nextEventId
      title := insertEvent.title
      description := insertEvent.description
      location := insertEvent.location
      address := insertEvent.address
      latitude := insertEvent.latitude
      longitude := insertEvent.longitude
      date := insertEvent.date
      endDate := insertEvent.endDate
      categoryId := insertEvent.categoryId
      price := insertEvent.price
      isFree := insertEvent.isFree.getD false
      imageUrl := insertEvent.imageUrl
      hostId := insertEvent.hostId
      isOnline := insertEvent.isOnline.getD false
      createdAt := st.now
      distanceInMiles := none }
  (event, { st with events := st.events ++ [event]
                    nextEventId := st.nextEventId + 1 })

/-- `PgStorage.deleteEvent`: delete the attendee rows of the event first, then
the event row; the returned flag says whether an event row was removed
(`returning` length). -/
def deleteEvent (st : PgState) (id : Int) : Bool × PgState :=
  let st1 := { st with
    attendees := st.attendees.filter (fun a => !(a.eventId == id)) }
  let deleted := st1.events.filter (fun e => e.id == id)
  (deleted.length > 0,
   { st1 with events := st1.events.filter (fun e => !(e.id == id)) })

/-- `PgStorage.getEventAttendees`: raw rows for the event. -/
def getEventAttendees (st : PgState) (eventId : Int) : List Attendee :=
  st.attendees.filter (fun a => a.eventId == eventId)

/-- `PgStorage.createAttendee`: `insert ... returning` with the next serial
id. -/
def createAttendee (st : PgState) (ia : InsertAttendee) :
    Attendee × PgState :=
  let attendee : Attendee :=
    { id := st.nextAttendeeId, userId := ia.userId, eventId := ia.eventId
      createdAt := st.now }
  (attendee, { st with attendees := st.attendees ++ [attendee]
                       nextAttendeeId := st.nextAttendeeId + 1 })

/-- `PgStorage.isUserAttending`: existence check on the pair. -/
def isUserAttending (st : PgState) (userId eventId : Int) : Bool :=
  st.attendees.any (fun a => a.userId == userId && a.eventId == eventId)

end PgStorage

/-- The spread `{...event, distanceInMiles}` inside `getEventsNearLocation`:
attach the computed distance to the enriched event. The scalar distance
helper (`this.calculateDistance`, float trigonometry) is abstracted as the
parameter `dist`; its real-number embedding is `haversineDistance` below. -/
def withDistance (dist : ℚ → ℚ → ℚ → ℚ → ℚ) (lat lng : ℚ)
    (x : EventWithAttendees) : EventWithAttendees :=
  let d := dist lat lng x.event.latitude x.event.longitude
  { x with event := { x.event with distanceInMiles := some d } }

/-- The filter `event.distanceInMiles <= distance`; a missing field
(`undefined <= d` is a NaN comparison in JS) is false. -/
def distanceLE (x : EventWithAttendees) (bound : ℚ) : Bool :=
  match x.event.distanceInMiles with
  | some d => decide (d ≤ bound)
  | none => false

/-- The sort key `(e.distanceInMiles || 0)`. -/
def distanceKey (x : EventWithAttendees) : ℚ :=
  x.event.distanceInMiles.getD 0

/-- The shared body of both `getEventsNearLocation` implementations: attach
the distance to every event, keep those within the bound, sort ascending by
distance. JS `Array.prototype.sort` with the comparator
`(a.distanceInMiles || 0) - (b.distanceInMiles || 0)` is observably a stable
sort by `distanceKey`; it is modelled by the stable `List.insertionSort`. -/
def nearScan (dist : ℚ → ℚ → ℚ → ℚ → ℚ) (lat lng maxDistance : ℚ)
    (allEvents : List EventWithAttendees) : List EventWithAttendees :=
  ((allEvents.map (withDistance dist lat lng)).filter
      (fun event => distanceLE event maxDistance)).insertionSort
    (fun a b => distanceKey a ≤ distanceKey b)

/-- `Promise.all` style sequencing of a list whose entries may be
`undefined`: accessing a field of an `undefined` entry in the subsequent
`.map` throws, so the whole operation fails when any entry is `none`. -/
def seqOptions {α : Type} : List (Option α) → Option (List α)
  | [] => some []
  | none :: _ => none
  | some a :: rest => (seqOptions rest).map (fun l => a :: l)

/-- `MemStorage.getEventsNearLocation`: `getAllEvents` (whose entries may be
`undefined` when a host is missing, in which case reading `.latitude` throws
— modelled as `none`), then the shared attach/filter/sort scan. -/
def MemStorage.getEventsNearLocation (dist : ℚ → ℚ → ℚ → ℚ → ℚ)
    (st : MemState) (lat lng distance : ℚ) :
    Option (List EventWithAttendees) :=
  (seqOptions (MemStorage.getAllEvents st)).map (nearScan dist lat lng distance)

/-- `PgStorage.getEventsNearLocation`: `getAllEvents` (always fully enriched)
then the shared attach/filter/sort scan. -/
def PgStorage.getEventsNearLocation (dist : ℚ → ℚ → ℚ → ℚ → ℚ)
    (st : PgState) (lat lng distance : ℚ) : List EventWithAttendees :=
  nearScan dist lat lng distance (PgStorage.getAllEvents st)

/-- A `User` with the `password` field stripped, as returned by the auth
routes (`const { password, ...userWithoutPassword } = user`). -/
structure PublicUser where
  id : Int
  username : String
  email : String
  name : String
  avatar : Option String
  createdAt : Int
deriving DecidableEq

/-- Drop the password field. -/
def stripPassword (u : User) : PublicUser :=
  ⟨u.id, u.username, u.email, u.name, u.avatar, u.createdAt⟩

/-- Express session data: the login route stores the full user record and its
id (`req.session.user`, `req.session.userId`). -/
structure SessionData where
  user : Option User
  userId : Option Int
deriving DecidableEq

/-- JS truthiness of a possibly-absent string (`!username`): absent and empty
are falsy. -/
def truthyStr (o : Option String) : Bool :=
  match o with
  | some s => !(s == "")
  | none => false

/-- JS truthiness of a possibly-absent numeric id (`!req.session.userId`):
absent and `0` are falsy. -/
def truthyId (o : Option Int) : Bool :=
  match o with
  | some i => !(i == 0)
  | none => false

/-- The JSON body and status produced by `POST /api/auth/login`. -/
structure LoginResult where
  status : Nat
  success : Bool
  message : Option String
  user : Option PublicUser
deriving DecidableEq

/-- `POST /api/auth/login` (routes.ts; `storage` is the PgStorage instance):
missing/empty username or password → 400; unknown username or password
mismatch → one shared 401 response with the generic message; success → 200
with the password-stripped user, session updated. -/
def loginRoute (st : PgState) (session : SessionData)
    (username password : Option String) : LoginResult × SessionData :=
  if !(truthyStr username && truthyStr password) then
    ({ status := 400, success := false
       message := some "Username and password are required", user := none },
     session)
  else
    match PgStorage.getUserByUsername st (username.getD "") with
    | none =>
      ({ status := 401, success := false
         message := some "Invalid username or password", user := none },
       session)
    | some user =>
      if !(user.password == password.getD "") then
        ({ status := 401, success := false
           message := some "Invalid username or password", user := none },
         session)
      else
        ({ status := 200, success := true, message := none
           user := some (stripPassword user) },
         { user := some user, userId := some user.id })

/-- The JSON body of `POST /api/events/:id/attend`: either a `{message}`
object or the refreshed enriched event (possibly `undefined`). -/
inductive AttendBody where
  | message (text : String)
  | eventBody (e : Option EventWithAttendees)
deriving DecidableEq

/-- Status and body of `POST /api/events/:id/attend`. -/
structure AttendResult where
  status : Nat
  body : AttendBody
deriving DecidableEq

/-- `POST /api/events/:id/attend` (routes.ts; `storage` is the PgStorage
instance): 401 without a session user id; 400 on an unparsable id
(`idParam = none` models `isNaN(parseInt(id))`); 400 when
`isUserAttending` already holds, leaving the state untouched; otherwise
create the attendee row and return the refreshed event with 201. -/
def attendRoute (st : PgState) (session : SessionData)
    (idParam : Option Int) : AttendResult × PgState :=
  if !(truthyId session.userId) then
    ({ status := 401
       body := .message "You must be logged in to register for events" }, st)
  else
    match idParam with
    | none => ({ status := 400, body := .message "Invalid event ID" }, st)
    | some eventId =>
      let userId := session.userId.getD 0
      if PgStorage.isUserAttending st userId eventId then
        ({ status := 400
           body := .message "You are already registered for this event" }, st)
      else
        let created := PgStorage.createAttendee st
          { userId := userId, eventId := eventId }
        ({ status := 201
           body := .eventBody (PgStorage.getEvent created.2 eventId) },
         created.2)

/-- `deg2rad` (identical in both storage classes), over `ℝ`. -/
noncomputable def deg2rad (deg : ℝ) : ℝ := deg * (Real.pi / 180)

/-- JS `Math.atan2(y, x)`, modelled as the argument of the complex number
`x + y·i` (same convention and range). -/
noncomputable def atan2 (y x : ℝ) : ℝ := Complex.arg ⟨x, y⟩

/-- `parseFloat(d.toFixed(1))`: rounding to one decimal place, over `ℝ`. -/
noncomputable def round1 (x : ℝ) : ℝ := (round (x * 10) : ℤ) / 10

/-- The intermediate value `a` of `calculateDistance`:
`a = sin(dLat/2)·sin(dLat/2) + cos(deg2rad lat1)·cos(deg2rad lat2)·
sin(dLon/2)·sin(dLon/2)` with `dLat = deg2rad (lat2 - lat1)` and
`dLon = deg2rad (lon2 - lon1)`. -/
noncomputable def haversineA (lat1 lon1 lat2 lon2 : ℝ) : ℝ :=
  Real.sin (deg2rad (lat2 - lat1) / 2) * Real.sin (deg2rad (lat2 - lat1) / 2) +
    Real.cos (deg2rad lat1) * Real.cos (deg2rad lat2) *
      (Real.sin (deg2rad (lon2 - lon1) / 2) *
        Real.sin (deg2rad (lon2 - lon1) / 2))

/-- The haversine helper `calculateDistance` shared by both storage classes
(they differ only in the Earth radius `R`), idealised over `ℝ`:
`c = 2·atan2(√a, √(1−a))`, result `R·c` rounded to one decimal place. -/
noncomputable def haversineDistance (R lat1 lon1 lat2 lon2 : ℝ) : ℝ :=
  round1 (R * (2 * atan2 (Real.sqrt (haversineA lat1 lon1 lat2 lon2))
    (Real.sqrt (1 - haversineA lat1 lon1 lat2 lon2))))

/-- `MemStorage.calculateDistance`: Earth radius 3958.8 miles. -/
noncomputable def MemStorage.calculateDistance (lat1 lon1 lat2 lon2 : ℝ) : ℝ :=
  haversineDistance 3958.8 lat1 lon1 lat2 lon2

/-- `PgStorage.calculateDistance`: Earth radius 6371 kilometres. -/
noncomputable def PgStorage.calculateDistance (lat1 lon1 lat2 lon2 : ℝ) : ℝ :=
  haversineDistance 6371 lat1 lon1 lat2 lon2

/-- Concrete sample user (host of `evTea`). -/
def uJohn : User :=
  { id := 1, username := "johndoe", password := "pw", email := "j@x"
    name := "John", avatar := none, createdAt := 0 }

/-- Concrete sample user. -/
def uJane : User :=
  { id := 2, username := "janedoe", password := "pw2", email := "a@x"
    name := "Jane", avatar := some "av", createdAt := 0 }

/-- Concrete sample event hosted by `uJohn`. -/
def evTea : Event :=
  { id := 1, title := "Tea", description := "hot", location := "loft"
    address := "ad", latitude := 0, longitude := 0, date := 10, endDate := none
    categoryId := "Food", price := none, isFree := true, imageUrl := none
    hostId := 1, isOnline := false, createdAt := 0, distanceInMiles := none }

/-- Concrete sample event whose `hostId` (9) resolves to no user. -/
def evGig : Event :=
  { id := 2, title := "Gig", description := "live", location := "park"
    address := "ad", latitude := 1, longitude := 2, date := 20, endDate := none
    categoryId := "Music", price := some 5, isFree := false, imageUrl := none
    hostId := 9, isOnline := false, createdAt := 0, distanceInMiles := none }

/-- Concrete sample event hosted by `uJane`. -/
def evYoga : Event :=
  { id := 2, title := "Yoga", description := "zen", location := "hi"
    address := "ad", latitude := 3, longitude := 4, date := 20, endDate := none
    categoryId := "Health", price := none, isFree := true, imageUrl := none
    hostId := 2, isOnline := false, createdAt := 0, distanceInMiles := none }

/-- Attendee row: `uJane` attends `evTea`. -/
def aRow : Attendee := { id := 1, userId := 2, eventId := 1, createdAt := 0 }

/-- Attendee row referencing the missing user 5, for `evTea`. -/
def aOrphan : Attendee := { id := 2, userId := 5, eventId := 1, createdAt := 0 }

/-- A mixed `MemStorage` state: one fully resolvable event (`evTea`), one
event with a missing host (`evGig`), one resolvable and one orphaned
attendee row. -/
def memX : MemState :=
  { users := [uJohn, uJane], events := [evTea, evGig]
    attendees := [aRow, aOrphan], userId := 3, eventId := 3, attendeeId := 3
    now := 7 }

/-- Same rows as `memX`, as a `PgStorage` database state. -/
def pgX : PgState :=
  { users := [uJohn, uJane], events := [evTea, evGig]
    attendees := [aRow, aOrphan], nextUserId := 3, nextEventId := 3
    nextAttendeeId := 3, now := 7 }

/-- A fully resolvable `MemStorage` state (every host exists, no attendee
rows). -/
def memClean : MemState :=
  { users := [uJohn, uJane], events := [evTea, evYoga], attendees := []
    userId := 3, eventId := 3, attendeeId := 3, now := 7 }

/-- Same rows as `memClean`, as a `PgStorage` database state. -/
def pgClean : PgState :=
  { users := [uJohn, uJane], events := [evTea, evYoga], attendees := []
    nextUserId := 3, nextEventId := 3, nextAttendeeId := 3, now := 7 }

/-- The enriched listing of `memClean` (what `seqOptions` extracts from
`MemStorage.getAllEvents memClean`). -/
def cleanAll : List EventWithAttendees :=
  [ { event := evTea, attendees := 0, attendeesList := []
      host := ⟨1, "John", ""⟩ }
  , { event := evYoga, attendees := 0, attendeesList := []
      host := ⟨2, "Jane", "av"⟩ } ]

/-- A concrete stand-in for the abstracted distance helper, used by
witnesses: the second point's latitude. -/
def dW : ℚ → ℚ → ℚ → ℚ → ℚ := fun _ _ lat2 _ => lat2

/-- A `PgStorage` state whose only event has an unresolvable host. -/
def pgOrphan : PgState :=
  { users := [], events := [evGig], attendees := [], nextUserId := 1
    nextEventId := 3, nextAttendeeId := 1, now := 0 }

/-- A sample `InsertEvent` payload hosted by `uJohn`. -/
def ieW : InsertEvent :=
  { title := "Run", description := "5k", location := "track", address := "ad"
    latitude := 2, longitude := 6, date := 30, endDate := some 31
    categoryId := "Sports", price := some 3, isFree := some false
    imageUrl := none, hostId := 1, isOnline := none }

lemma jsStartsWith_iff (p s : List Char) :
    jsStartsWith s p = true ↔ ∃ r, s = p ++ r := by
  induction p generalizing s with
  | nil => simp [jsStartsWith]
  | cons c cs ih =>
    cases s with
    | nil => simp [jsStartsWith]
    | cons a as =>
      simp only [jsStartsWith, Bool.and_eq_true, beq_iff_eq, ih,
        List.cons_append, List.cons.injEq]
      constructor
      · rintro ⟨h1, r, h2⟩
        exact ⟨r, h1, h2⟩
      · rintro ⟨r, h1, h2⟩
        exact ⟨h1, r, h2⟩

lemma jsIncludes_iff (s sub : List Char) :
    jsIncludes s sub = true ↔ ∃ l r, s = l ++ sub ++ r := by
  induction s with
  | nil =>
    simp only [jsIncludes, Bool.or_eq_true, jsStartsWith_iff]
    constructor
    · rintro (⟨r, hr⟩ | h)
      · exact ⟨[], r, by simpa using hr⟩
      · simp at h
    · rintro ⟨l, r, hlr⟩
      exact Or.inl ⟨r, by simp at hlr; simp [hlr.1, hlr.2.1, hlr.2.2]⟩
  | cons a as ih =>
    simp only [jsIncludes, Bool.or_eq_true, jsStartsWith_iff, ih]
    constructor
    · rintro (⟨r, hr⟩ | ⟨l, r, hlr⟩)
      · exact ⟨[], r, by simpa using hr⟩
      · exact ⟨a :: l, r, by simp [hlr]⟩
    · rintro ⟨l, r, hlr⟩
      cases l with
      | nil => exact Or.inl ⟨r, by simpa using hlr⟩
      | cons x xs =>
        obtain ⟨h1, h2⟩ : a = x ∧ as = xs ++ sub ++ r := by simpa using hlr
        exact Or.inr ⟨xs, r, h2⟩

lemma likeStar_iff (f : List Char → Bool) (s : List Char) :
    likeStar f s = true ↔ ∃ l r, s = l ++ r ∧ f r = true := by
  induction s with
  | nil =>
    simp only [likeStar]
    constructor
    · intro h
      exact ⟨[], [], rfl, h⟩
    · rintro ⟨l, r, h1, h2⟩
      obtain ⟨h3, h4⟩ := List.append_eq_nil.mp h1.symm
      rwa [h4] at h2
  | cons c s2 ih =>
    simp only [likeStar, Bool.or_eq_true, ih]
    constructor
    · rintro (h | ⟨l, r, h1, h2⟩)
      · exact ⟨[], c :: s2, rfl, h⟩
      · exact ⟨c :: l, r, by simp [h1], h2⟩
    · rintro ⟨l, r, h1, h2⟩
      cases l with
      | nil =>
        refine Or.inl ?_
        have : r = c :: s2 := by simpa using h1.symm
        rwa [this] at h2
      | cons x xs =>
        obtain ⟨h3, h4⟩ : c = x ∧ s2 = xs ++ r := by simpa using h1
        exact Or.inr ⟨xs, r, h4, h2⟩

lemma likeMatch_nil_eq (s : List Char) : likeMatch [] s = s.isEmpty := by
  rw [likeMatch.eq_def]

lemma likeMatch_pct_cons (ps s : List Char) :
    likeMatch ('%' :: ps) s = likeStar (likeMatch ps) s := by
  rw [likeMatch.eq_def]
  simp only []
  simp

lemma likeMatch_esc_nil (x : Char) (ps : List Char) :
    likeMatch ('\\' :: x :: ps) [] = false := by
  rw [likeMatch.eq_def]
  simp only []
  simp

lemma likeMatch_esc_cons (x : Char) (ps : List Char) (c : Char)
    (s2 : List Char) :
    likeMatch ('\\' :: x :: ps) (c :: s2) = (x == c && likeMatch ps s2) := by
  rw [likeMatch.eq_def]
  simp only []
  simp

lemma likeMatch_lit_nil (p : Char) (h1 : p ≠ '%') (ps : List Char) :
    likeMatch (p :: ps) [] = false := by
  rw [likeMatch.eq_def]
  simp only []
  rw [if_neg h1]
  by_cases h : p = '\\'
  · rw [if_pos h]
    cases ps <;> rfl
  · rw [if_neg h]

lemma likeMatch_lit_cons (p : Char) (h1 : p ≠ '%') (h2 : p ≠ '_')
    (h3 : p ≠ '\\') (ps : List Char) (c : Char) (s2 : List Char) :
    likeMatch (p :: ps) (c :: s2) = (p == c && likeMatch ps s2) := by
  rw [likeMatch.eq_def]
  simp only []
  rw [if_neg h1, if_neg h3, if_neg h2]

lemma likeMatch_pct_single (s : List Char) : likeMatch ['%'] s = true := by
  rw [likeMatch_pct_cons]
  induction s with
  | nil => simp [likeStar, likeMatch_nil_eq]
  | cons c s2 ih => simp [likeStar, likeMatch_nil_eq, ih]

lemma likeMatch_append_lit (q : List Char)
    (hq : ∀ c ∈ q, c ≠ '%' ∧ c ≠ '_' ∧ c ≠ '\\') (ps s : List Char) :
    likeMatch (q ++ ps) s = true ↔ ∃ r, s = q ++ r ∧ likeMatch ps r = true := by
  induction q generalizing s with
  | nil => simp
  | cons c q2 ih =>
    have hc := hq c (List.mem_cons_self c q2)
    have ih2 := ih (fun c2 hc2 => hq c2 (List.mem_cons_of_mem c hc2))
    cases s with
    | nil =>
      rw [List.cons_append, likeMatch_lit_nil c hc.1]
      simp
    | cons a s2 =>
      rw [List.cons_append, likeMatch_lit_cons c hc.1 hc.2.1 hc.2.2]
      simp only [Bool.and_eq_true, beq_iff_eq, ih2, List.cons_append,
        List.cons.injEq]
      constructor
      · rintro ⟨hca, r, h1, h2⟩
        exact ⟨r, ⟨hca.symm, h1⟩, h2⟩
      · rintro ⟨r, ⟨h1, h2⟩, h3⟩
        exact ⟨h1.symm, r, h2, h3⟩

lemma likeMatch_escape (x : Char) (s : List Char) :
    likeMatch ['\\', x] s = true ↔ s = [x] := by
  cases s with
  | nil => simp [likeMatch_esc_nil]
  | cons c s2 =>
    rw [likeMatch_esc_cons]
    cases s2 with
    | nil =>
      simp only [likeMatch_nil_eq, List.isEmpty_nil, Bool.and_true,
        beq_iff_eq, List.cons.injEq, and_true]
      exact eq_comm
    | cons d s3 => simp [likeMatch_nil_eq]

lemma likeMatch_contains_iff (q : List Char)
    (hq : ∀ c ∈ q, c ≠ '%' ∧ c ≠ '_' ∧ c ≠ '\\') (s : List Char) :
    likeMatch ('%' :: (q ++ ['%'])) s = true ↔ ∃ l r, s = l ++ q ++ r := by
  rw [likeMatch_pct_cons, likeStar_iff]
  constructor
  · rintro ⟨l, r, h1, h2⟩
    rw [likeMatch_append_lit q hq] at h2
    obtain ⟨r2, h3, _⟩ := h2
    exact ⟨l, r2, by rw [h1, h3]; simp⟩
  · rintro ⟨l, r, h⟩
    refine ⟨l, q ++ r, by rw [h]; simp, ?_⟩
    rw [likeMatch_append_lit q hq]
    exact ⟨r, rfl, likeMatch_pct_single r⟩

lemma likeMatch_backslash_pattern (s : List Char) :
    likeMatch ("%" ++ "\\" ++ "%").data s = true ↔ ∃ l, s = l ++ ['%'] := by
  have hd : ("%" ++ "\\" ++ "%").data = '%' :: ['\\', '%'] := rfl
  rw [hd, likeMatch_pct_cons, likeStar_iff]
  constructor
  · rintro ⟨l, r, h1, h2⟩
    rw [likeMatch_escape] at h2
    exact ⟨l, by rw [h1, h2]⟩
  · rintro ⟨l, h⟩
    exact ⟨l, ['%'], h, (likeMatch_escape '%' ['%']).mpr rfl⟩

lemma pattern_data (q : String) :
    ("%" ++ q ++ "%").data = '%' :: (q.data ++ ['%']) := by
  cases q
  rfl

/-- C1 (amended): for every id, `PgStorage.deleteEvent` removes all attendee
rows of the event and the event row, and its boolean result says whether an
event row existed; afterwards `getEventAttendees` for that id is empty.
`MemStorage.deleteEvent`, by contrast, removes only the event row (its
boolean also says whether the row existed) and leaves the attendee rows
completely unchanged. -/
theorem C1_delete_event (pst : PgState) (st : MemState) (id : Int) :
    ((PgStorage.deleteEvent pst id).1 = true ↔ ∃ e ∈ pst.events, e.id = id)
    ∧ PgStorage.getEventAttendees (PgStorage.deleteEvent pst id).2 id = []
    ∧ (∀ e ∈ (PgStorage.deleteEvent pst id).2.events, e.id ≠ id)
    ∧ ((MemStorage.deleteEvent st id).1 = true ↔ ∃ e ∈ st.events, e.id = id)
    ∧ (∀ e ∈ (MemStorage.deleteEvent st id).2.events, e.id ≠ id)
    ∧ (MemStorage.deleteEvent st id).2.attendees = st.attendees := by
  refine ⟨?_, ?_, ?_, ?_, ?_, rfl⟩
  · simp [PgStorage.deleteEvent, List.length_pos, List.filter_eq_nil_iff]
  · simp [PgStorage.deleteEvent, PgStorage.getEventAttendees,
      List.filter_filter, List.filter_eq_nil_iff]
  · intro e he
    simp [PgStorage.deleteEvent, List.mem_filter] at he
    exact he.2
  · simp [MemStorage.deleteEvent, List.any_eq_true]
  · intro e he
    simp [MemStorage.deleteEvent, List.mem_filter] at he
    exact he.2

/-- Closed instance of `C1_delete_event` at a concrete state: the PgStorage
delete leaves no attendee rows behind and removes the event row, while the
MemStorage delete succeeds yet keeps the attendee rows. -/
theorem C1_witness :
    PgStorage.getEventAttendees (PgStorage.deleteEvent pgX 1).2 1 = []
    ∧ evGig.id ≠ 1
    ∧ (MemStorage.deleteEvent memX 1).1 = true
    ∧ (MemStorage.deleteEvent memX 1).2.attendees = memX.attendees :=
  ⟨(C1_delete_event pgX memX 1).2.1,
   (C1_delete_event pgX memX 1).2.2.1 evGig (by decide),
   ((C1_delete_event pgX memX 1).2.2.2.1).mpr ⟨evTea, by decide, by decide⟩,
   (C1_delete_event pgX memX 1).2.2.2.2.2⟩

/-- C1 counterexample: in the concrete MemStorage state `memX`,
`deleteEvent(1)` succeeds (returns true) but the attendee rows of event 1
survive, so `getEventAttendees(1)` is not empty — refuting the claim that
both storage implementations delete the attendee rows. -/
theorem C1_counterexample :
    (MemStorage.deleteEvent memX 1).1 = true
    ∧ MemStorage.getEventAttendees (MemStorage.deleteEvent memX 1).2 1 ≠ [] := by
  decide

/-- C2 (amended): for every query, `MemStorage.searchEvents` selects exactly
the events whose lowercased title, description or location contains the
lowercased query as a substring (OR semantics), each selected event enriched
through `getEvent`; `PgStorage.searchEvents` instead selects by the
case-SENSITIVE SQL `LIKE '%query%'` over the same three fields (OR
semantics), each row enriched with the placeholder-tolerant mapping. The
remaining conjuncts give the matching predicates their meaning:
`jsIncludes` is exactly substring containment; for a query free of the
`LIKE` metacharacters `%`, `_` and the default escape `\`, the pattern
`'%q%'` is exactly case-sensitive substring containment; and the escape
keeps its PostgreSQL meaning — the pattern for the one-backslash query
matches exactly the values ending in a literal `%`. -/
theorem C2_search_semantics (st : MemState) (pst : PgState) (q : String) :
    MemStorage.searchEvents st q =
      (st.events.filter (fun event =>
        jsIncludes (jsToLower event.title).data (jsToLower q).data ||
        jsIncludes (jsToLower event.description).data (jsToLower q).data ||
        jsIncludes (jsToLower event.location).data (jsToLower q).data)).map
        (fun event => MemStorage.getEvent st event.id)
    ∧ (∀ s sub : List Char, jsIncludes s sub = true ↔ ∃ l r, s = l ++ sub ++ r)
    ∧ PgStorage.searchEvents pst q =
      (pst.events.filter (fun event =>
        likeMatch ("%" ++ q ++ "%").data event.title.data ||
        likeMatch ("%" ++ q ++ "%").data event.description.data ||
        likeMatch ("%" ++ q ++ "%").data event.location.data)).map
        (PgStorage.enrichEvent pst)
    ∧ ((∀ c ∈ q.data, c ≠ '%' ∧ c ≠ '_' ∧ c ≠ '\\') → ∀ s : List Char,
        likeMatch ("%" ++ q ++ "%").data s = true ↔
          ∃ l r, s = l ++ q.data ++ r)
    ∧ (∀ s : List Char,
        likeMatch ("%" ++ "\\" ++ "%").data s = true ↔
          ∃ l, s = l ++ ['%']) := by
  refine ⟨rfl, jsIncludes_iff, rfl, ?_, likeMatch_backslash_pattern⟩
  intro hq s
  rw [pattern_data]
  exact likeMatch_contains_iff q.data hq s

/-- Closed instance of `C2_search_semantics`: the substring meaning of both
matchers at concrete strings, and the escape behaviour of the
one-backslash query (its pattern matches "a%", which ends in a literal
percent sign). -/
theorem C2_witness :
    (jsIncludes (jsToLower "Tea").data (jsToLower "TEA").data = true ↔
      ∃ l r, (jsToLower "Tea").data = l ++ (jsToLower "TEA").data ++ r)
    ∧ (likeMatch ("%" ++ "ea" ++ "%").data "Tea".data = true ↔
      ∃ l r, "Tea".data = l ++ "ea".data ++ r)
    ∧ (likeMatch ("%" ++ "\\" ++ "%").data "a%".data = true ↔
      ∃ l, "a%".data = l ++ ['%']) :=
  ⟨(C2_search_semantics memX pgX "TEA").2.1 (jsToLower "Tea").data
      (jsToLower "TEA").data,
   (C2_search_semantics memX pgX "ea").2.2.2.1 (by decide) "Tea".data,
   (C2_search_semantics memX pgX "\\").2.2.2.2 "a%".data⟩

/-- C2 counterexample: in the concrete states `memX`/`pgX` (same rows), the
query "tea" matches the event titled "Tea" case-insensitively, and
`MemStorage.searchEvents` returns it — but `PgStorage.searchEvents` returns
the empty list, refuting case-insensitive matching for PgStorage. -/
theorem C2_counterexample :
    evTea ∈ pgX.events
    ∧ jsIncludes (jsToLower evTea.title).data (jsToLower "tea").data = true
    ∧ MemStorage.searchEvents memX "tea" ≠ []
    ∧ PgStorage.searchEvents pgX "tea" = [] := by
  decide

/-- C3: in both storage implementations, `getEventsByCategory "All"` is
exactly `getAllEvents`, and for any other category id the result is exactly
the events whose stored `categoryId` matches, each enriched — for PgStorage
equivalently the unfiltered listing filtered by the underlying event's
category. -/
theorem C3_category_filter (st : MemState) (pst : PgState)
    (categoryId : String) :
    MemStorage.getEventsByCategory st "All" = MemStorage.getAllEvents st
    ∧ PgStorage.getEventsByCategory pst "All" = PgStorage.getAllEvents pst
    ∧ (categoryId ≠ "All" →
        MemStorage.getEventsByCategory st categoryId =
          (st.events.filter (fun event => event.categoryId == categoryId)).map
            (fun event => MemStorage.getEvent st event.id))
    ∧ (categoryId ≠ "All" →
        PgStorage.getEventsByCategory pst categoryId =
          (PgStorage.getAllEvents pst).filter
            (fun x => x.event.categoryId == categoryId)) := by
  refine ⟨by simp [MemStorage.getEventsByCategory],
    by simp [PgStorage.getEventsByCategory], ?_, ?_⟩
  · intro h
    simp [MemStorage.getEventsByCategory, h]
  · intro h
    rw [PgStorage.getEventsByCategory, if_neg (by simp [h]),
      PgStorage.getAllEvents, List.filter_map]
    rfl

/-- Closed instance of `C3_category_filter` at the concrete state
`memX`/`pgX` with the non-sentinel category "Food". -/
theorem C3_witness :
    MemStorage.getEventsByCategory memX "Food" =
      (memX.events.filter (fun event => event.categoryId == "Food")).map
        (fun event => MemStorage.getEvent memX event.id)
    ∧ PgStorage.getEventsByCategory pgX "Food" =
      (PgStorage.getAllEvents pgX).filter
        (fun x => x.event.categoryId == "Food") :=
  ⟨(C3_category_filter memX pgX "Food").2.2.1 (by decide),
   (C3_category_filter memX pgX "Food").2.2.2 (by decide)⟩

lemma nearScan_perm (dist : ℚ → ℚ → ℚ → ℚ → ℚ) (lat lng maxD : ℚ)
    (l : List EventWithAttendees) :
    (nearScan dist lat lng maxD l).Perm
      ((l.map (withDistance dist lat lng)).filter
        (fun e => distanceLE e maxD)) :=
  List.perm_insertionSort _ _

lemma nearScan_sorted (dist : ℚ → ℚ → ℚ → ℚ → ℚ) (lat lng maxD : ℚ)
    (l : List EventWithAttendees) :
    List.Sorted (fun a b => distanceKey a ≤ distanceKey b)
      (nearScan dist lat lng maxD l) := by
  haveI : IsTotal EventWithAttendees
      (fun a b => distanceKey a ≤ distanceKey b) := ⟨fun a b => le_total _ _⟩
  haveI : IsTrans EventWithAttendees
      (fun a b => distanceKey a ≤ distanceKey b) :=
    ⟨fun a b c hab hbc => le_trans hab hbc⟩
  exact List.sorted_insertionSort _ _

lemma nearScan_mem (dist : ℚ → ℚ → ℚ → ℚ → ℚ) (lat lng maxD : ℚ)
    (l : List EventWithAttendees) (x : EventWithAttendees)
    (hx : x ∈ nearScan dist lat lng maxD l) :
    x.event.distanceInMiles =
        some (dist lat lng x.event.latitude x.event.longitude)
      ∧ dist lat lng x.event.latitude x.event.longitude ≤ maxD := by
  have hx2 := (nearScan_perm dist lat lng maxD l).mem_iff.mp hx
  obtain ⟨hmem, hfilt⟩ := List.mem_filter.mp hx2
  obtain ⟨y, hy, rfl⟩ := List.mem_map.mp hmem
  refine ⟨rfl, ?_⟩
  simp only [distanceLE, withDistance] at hfilt
  exact of_decide_eq_true hfilt

/-- C4: for every distance helper, both `getEventsNearLocation`
implementations return exactly the enriched events within the bound
(a permutation of the attach-then-filter of `getAllEvents`), with the
computed distance attached as `distanceInMiles` to each returned event, and
the result sorted ascending by that distance. The MemStorage variant is
conditional on every listed event being enriched (a missing host makes the
whole call fail — see `seqOptions`). -/
theorem C4_near_location (dist : ℚ → ℚ → ℚ → ℚ → ℚ) (pst : PgState)
    (st : MemState) (lat lng maxDistance : ℚ) :
    (PgStorage.getEventsNearLocation dist pst lat lng maxDistance).Perm
        (((PgStorage.getAllEvents pst).map (withDistance dist lat lng)).filter
          (fun e => distanceLE e maxDistance))
    ∧ (∀ x ∈ PgStorage.getEventsNearLocation dist pst lat lng maxDistance,
        x.event.distanceInMiles =
            some (dist lat lng x.event.latitude x.event.longitude)
          ∧ dist lat lng x.event.latitude x.event.longitude ≤ maxDistance)
    ∧ List.Sorted (fun a b => distanceKey a ≤ distanceKey b)
        (PgStorage.getEventsNearLocation dist pst lat lng maxDistance)
    ∧ (∀ allE, seqOptions (MemStorage.getAllEvents st) = some allE →
        MemStorage.getEventsNearLocation dist st lat lng maxDistance =
            some (nearScan dist lat lng maxDistance allE)
          ∧ (nearScan dist lat lng maxDistance allE).Perm
              ((allE.map (withDistance dist lat lng)).filter
                (fun e => distanceLE e maxDistance))
          ∧ (∀ x ∈ nearScan dist lat lng maxDistance allE,
              x.event.distanceInMiles =
                  some (dist lat lng x.event.latitude x.event.longitude)
                ∧ dist lat lng x.event.latitude x.event.longitude
                    ≤ maxDistance)
          ∧ List.Sorted (fun a b => distanceKey a ≤ distanceKey b)
              (nearScan dist lat lng maxDistance allE)) := by
  refine ⟨nearScan_perm dist lat lng maxDistance (PgStorage.getAllEvents pst),
    fun x hx => nearScan_mem dist lat lng maxDistance _ x hx,
    nearScan_sorted dist lat lng maxDistance _, ?_⟩
  intro allE hAll
  refine ⟨?_, nearScan_perm dist lat lng maxDistance allE,
    fun x hx => nearScan_mem dist lat lng maxDistance allE x hx,
    nearScan_sorted dist lat lng maxDistance allE⟩
  rw [MemStorage.getEventsNearLocation, hAll]
  rfl

/-- Closed instance of `C4_near_location` at `memClean`/`dW`: the MemStorage
hypothesis holds concretely, the result is the sorted scan of `cleanAll`,
and its first member carries the correct attached distance within the
bound. -/
theorem C4_witness :
    seqOptions (MemStorage.getAllEvents memClean) = some cleanAll
    ∧ MemStorage.getEventsNearLocation dW memClean 0 0 10 =
        some (nearScan dW 0 0 10 cleanAll)
    ∧ List.Sorted (fun a b => distanceKey a ≤ distanceKey b)
        (nearScan dW 0 0 10 cleanAll)
    ∧ (withDistance dW 0 0
          { event := evTea, attendees := 0, attendeesList := [], host := ⟨1, "John", ""⟩ }).event.distanceInMiles
        = some (dW 0 0 evTea.latitude evTea.longitude)
    ∧ dW 0 0 evTea.latitude evTea.longitude ≤ 10 := by
  have h := C4_near_location dW pgClean memClean 0 0 10
  have h2 := h.2.2.2 cleanAll (by decide)
  have h3 := h2.2.2.1 (withDistance dW 0 0
    { event := evTea, attendees := 0, attendeesList := [], host := ⟨1, "John", ""⟩ }) (by decide)
  exact ⟨by decide, h2.1, h2.2.2.2, h3.1, h3.2⟩

lemma find?_mapSetEvent (l : List Event) (e : Event) :
    (mapSetEvent l e).find? (fun x => x.id == e.id) = some e := by
  unfold mapSetEvent
  by_cases h : l.any (fun x => x.id == e.id)
  · rw [if_pos h]
    induction l with
    | nil => simp at h
    | cons x t ih =>
      by_cases hx : (x.id == e.id)
      · simp [List.find?, hx]
      · have h2 : t.any (fun y => y.id == e.id) := by
          simp only [List.any_cons, hx, Bool.false_or] at h
          exact h
        have hfx : (if (x.id == e.id) = true then e else x) = x :=
          if_neg (by simpa using hx)
        rw [List.map_cons, hfx,
          @List.find?_cons_of_neg Event (fun y => y.id == e.id) x
            (t.map (fun y => if (y.id == e.id) = true then e else y)) hx,
          ih h2]
  · rw [if_neg h]
    rw [List.find?_append]
    have hnone : l.find? (fun x => x.id == e.id) = none := by
      rw [List.find?_eq_none]
      intro x hx
      simp only [List.any_eq_true, not_exists, not_and] at h
      simp [h x hx]
    simp [hnone, List.find?]

lemma getEvent_eval (st : MemState) (id : Int) (e : Event) (hu : User)
    (hfind : st.events.find? (fun x => x.id == id) = some e)
    (hhost : st.users.find? (fun u => u.id == e.hostId) = some hu) :
    MemStorage.getEvent st id =
      some { event := e
             attendees :=
               (st.attendees.filter (fun a => a.eventId == id)).length
             attendeesList :=
               (st.attendees.filter (fun a => a.eventId == id)).filterMap
                 (fun a =>
                   (st.users.find? (fun u => u.id == a.userId)).map summaryOf)
             host := summaryOf hu } := by
  simp only [MemStorage.getEvent, hfind, hhost]

lemma pgGetEvent_eval (st : PgState) (id : Int) (e : Event) (hu : User)
    (hfind : (st.events.filter (fun x => x.id == id)).head? = some e)
    (hhost : (st.users.filter (fun u => u.id == e.hostId)).head? = some hu) :
    PgStorage.getEvent st id =
      some { event := e
             attendees := (PgStorage.getFormattedAttendees st id).length
             attendeesList := PgStorage.getFormattedAttendees st id
             host := summaryOf hu } := by
  simp only [PgStorage.getEvent, hfind, hhost]

/-- C5: round trip in both storage implementations — when the payload's
`hostId` resolves to a user, the freshly created event's id is new (fresh
serial for PgStorage) and no attendee row references it, `getEvent` of the
new id returns the created event's fields unchanged, with `attendees = 0`,
`attendeesList = []` and the host's summary. -/
theorem C5_create_roundtrip (st : MemState) (pst : PgState) (ie : InsertEvent)
    (hu : User) (hhost : st.users.find? (fun u => u.id == ie.hostId) = some hu)
    (hatt : ∀ a ∈ st.attendees, a.eventId ≠ st.eventId)
    (pu : User)
    (hphost : (pst.users.filter (fun u => u.id == ie.hostId)).head? = some pu)
    (hfresh : ∀ e ∈ pst.events, e.id ≠ pst.nextEventId)
    (hpatt : ∀ a ∈ pst.attendees, a.eventId ≠ pst.nextEventId) :
    MemStorage.getEvent (MemStorage.createEvent st ie).2
        (MemStorage.createEvent st ie).1.id =
      some { event := (MemStorage.createEvent st ie).1, attendees := 0,
             attendeesList := [], host := summaryOf hu }
    ∧ PgStorage.getEvent (PgStorage.createEvent pst ie).2
        (PgStorage.createEvent pst ie).1.id =
      some { event := (PgStorage.createEvent pst ie).1, attendees := 0,
             attendeesList := [], host := summaryOf pu } := by
  constructor
  · have hfind := find?_mapSetEvent st.events (MemStorage.createEvent st ie).1
    have hnil : (MemStorage.createEvent st ie).2.attendees.filter
        (fun a => a.eventId == (MemStorage.createEvent st ie).1.id) = [] :=
      List.filter_eq_nil_iff.mpr (fun a ha => by simpa using hatt a ha)
    rw [getEvent_eval (MemStorage.createEvent st ie).2
      (MemStorage.createEvent st ie).1.id (MemStorage.createEvent st ie).1 hu
      hfind hhost, hnil]
    simp
  · have hfilter : (PgStorage.createEvent pst ie).2.events.filter
        (fun x => x.id == (PgStorage.createEvent pst ie).1.id) =
        [(PgStorage.createEvent pst ie).1] := by
      show (pst.events ++ [(PgStorage.createEvent pst ie).1]).filter _ = _
      rw [List.filter_append,
        List.filter_eq_nil_iff.mpr (fun e he => by simpa using hfresh e he),
        List.nil_append]
      simp [List.filter]
    have hnil : (PgStorage.createEvent pst ie).2.attendees.filter
        (fun a => a.eventId == (PgStorage.createEvent pst ie).1.id) = [] :=
      List.filter_eq_nil_iff.mpr (fun a ha => by simpa using hpatt a ha)
    have hfmt : PgStorage.getFormattedAttendees (PgStorage.createEvent pst ie).2
        (PgStorage.createEvent pst ie).1.id = [] := by
      rw [PgStorage.getFormattedAttendees, hnil]
      rfl
    rw [pgGetEvent_eval (PgStorage.createEvent pst ie).2
      (PgStorage.createEvent pst ie).1.id (PgStorage.createEvent pst ie).1 pu
      (by rw [hfilter]; rfl) hphost, hfmt]
    simp

/-- Closed instance of `C5_create_roundtrip`: creating `ieW` in the concrete
states and reading it back yields the created fields with no attendees. -/
theorem C5_witness :
    MemStorage.getEvent (MemStorage.createEvent memClean ieW).2
        (MemStorage.createEvent memClean ieW).1.id =
      some { event := (MemStorage.createEvent memClean ieW).1, attendees := 0,
             attendeesList := [], host := summaryOf uJohn }
    ∧ PgStorage.getEvent (PgStorage.createEvent pgClean ieW).2
        (PgStorage.createEvent pgClean ieW).1.id =
      some { event := (PgStorage.createEvent pgClean ieW).1, attendees := 0,
             attendeesList := [], host := summaryOf uJohn } :=
  C5_create_roundtrip memClean pgClean ieW uJohn (by decide)
    (by decide) uJohn (by decide) (by decide) (by decide)

lemma haversineA_symm (a1 o1 a2 o2 : ℝ) :
    haversineA a1 o1 a2 o2 = haversineA a2 o2 a1 o1 := by
  unfold haversineA deg2rad
  rw [show (a1 - a2) * (Real.pi / 180) / 2
        = -((a2 - a1) * (Real.pi / 180) / 2) by ring,
      show (o1 - o2) * (Real.pi / 180) / 2
        = -((o2 - o1) * (Real.pi / 180) / 2) by ring,
      Real.sin_neg, Real.sin_neg]
  ring

lemma haversineA_self (a o : ℝ) : haversineA a o a o = 0 := by
  unfold haversineA deg2rad
  simp

lemma atan2_zero_one : atan2 0 1 = 0 := by
  unfold atan2
  have h : (⟨1, 0⟩ : ℂ) = 1 := by
    apply Complex.ext <;> simp
  rw [h, Complex.arg_one]

lemma haversineDistance_symm (R a1 o1 a2 o2 : ℝ) :
    haversineDistance R a1 o1 a2 o2 = haversineDistance R a2 o2 a1 o1 := by
  unfold haversineDistance
  rw [haversineA_symm]

lemma haversineDistance_self (R a o : ℝ) :
    haversineDistance R a o a o = 0 := by
  unfold haversineDistance
  rw [haversineA_self, Real.sqrt_zero, sub_zero, Real.sqrt_one, atan2_zero_one]
  norm_num [round1]

/-- C6: both `calculateDistance` helpers (Earth radius 3958.8 miles for
MemStorage, 6371 km for PgStorage) are symmetric in their two coordinate
pairs, and the distance from any point to itself is exactly 0 (in the
real-number idealisation of the float computation). -/
theorem C6_distance_symm_zero (lat1 lon1 lat2 lon2 : ℝ) :
    MemStorage.calculateDistance lat1 lon1 lat2 lon2 =
        MemStorage.calculateDistance lat2 lon2 lat1 lon1
    ∧ MemStorage.calculateDistance lat1 lon1 lat1 lon1 = 0
    ∧ PgStorage.calculateDistance lat1 lon1 lat2 lon2 =
        PgStorage.calculateDistance lat2 lon2 lat1 lon1
    ∧ PgStorage.calculateDistance lat1 lon1 lat1 lon1 = 0 :=
  ⟨haversineDistance_symm 3958.8 lat1 lon1 lat2 lon2,
   haversineDistance_self 3958.8 lat1 lon1,
   haversineDistance_symm 6371 lat1 lon1 lat2 lon2,
   haversineDistance_self 6371 lat1 lon1⟩

/-- C7: in both storage implementations, `getEvent` returns the not-found
sentinel when the event row is absent and when the event exists but its host
does not resolve; and whenever it does return a value, the attendee list is
the filterMap that silently drops every attendee row whose user does not
resolve. -/
theorem C7_get_event_resolution (st : MemState) (pst : PgState) (id : Int) :
    (st.events.find? (fun e => e.id == id) = none →
      MemStorage.getEvent st id = none)
    ∧ (∀ e, st.events.find? (fun e2 => e2.id == id) = some e →
        st.users.find? (fun u => u.id == e.hostId) = none →
        MemStorage.getEvent st id = none)
    ∧ (∀ x, MemStorage.getEvent st id = some x →
        x.attendeesList =
          (st.attendees.filter (fun a => a.eventId == id)).filterMap
            (fun a => (st.users.find? (fun u => u.id == a.userId)).map
              summaryOf))
    ∧ ((pst.events.filter (fun e => e.id == id)).head? = none →
      PgStorage.getEvent pst id = none)
    ∧ (∀ e, (pst.events.filter (fun e2 => e2.id == id)).head? = some e →
        (pst.users.filter (fun u => u.id == e.hostId)).head? = none →
        PgStorage.getEvent pst id = none)
    ∧ (∀ x, PgStorage.getEvent pst id = some x →
        x.attendeesList =
          (pst.attendees.filter (fun a => a.eventId == id)).filterMap
            (fun a => ((pst.users.filter
              (fun u => u.id == a.userId)).head?).map summaryOf)) := by
  refine ⟨?_, ?_, ?_, ?_, ?_, ?_⟩
  · intro h
    simp [MemStorage.getEvent, h]
  · intro e h1 h2
    simp [MemStorage.getEvent, h1, h2]
  · intro x hx
    rw [MemStorage.getEvent] at hx
    split at hx
    · exact absurd hx (by simp)
    · split at hx
      · exact absurd hx (by simp)
      · obtain rfl : _ = x := Option.some.injEq _ _ ▸ hx
        rfl
  · intro h
    simp [PgStorage.getEvent, h]
  · intro e h1 h2
    simp [PgStorage.getEvent, h1, h2]
  · intro x hx
    rw [PgStorage.getEvent] at hx
    split at hx
    · exact absurd hx (by simp)
    · split at hx
      · exact absurd hx (by simp)
      · obtain rfl : _ = x := Option.some.injEq _ _ ▸ hx
        rfl

/-- Closed instance of `C7_get_event_resolution` on `memX`/`pgX`: a missing
event id gives `none`, the event with the unresolvable host (id 2) gives
`none`, and the attendee list of event 1 drops the orphaned attendee row. -/
theorem C7_witness :
    MemStorage.getEvent memX 99 = none
    ∧ MemStorage.getEvent memX 2 = none
    ∧ ({ event := evTea, attendees := 2, attendeesList := [summaryOf uJane],
         host := summaryOf uJohn } : EventWithAttendees).attendeesList =
        (memX.attendees.filter (fun a => a.eventId == 1)).filterMap
          (fun a => (memX.users.find? (fun u => u.id == a.userId)).map
            summaryOf)
    ∧ PgStorage.getEvent pgX 99 = none
    ∧ PgStorage.getEvent pgX 2 = none :=
  ⟨(C7_get_event_resolution memX pgX 99).1 (by decide),
   (C7_get_event_resolution memX pgX 2).2.1 evGig (by decide) (by decide),
   (C7_get_event_resolution memX pgX 1).2.2.1
     { event := evTea, attendees := 2, attendeesList := [summaryOf uJane],
       host := summaryOf uJohn } (by decide),
   (C7_get_event_resolution memX pgX 99).2.2.2.1 (by decide),
   (C7_get_event_resolution memX pgX 2).2.2.2.2.1 evGig (by decide)
     (by decide)⟩

/-- C8: `POST /api/events/:id/attend` (backed by PgStorage), called with an
authenticated session whose user is already registered for the event,
returns HTTP 400 with the "already registered" message and leaves the
storage state — in particular the attendee rows — unchanged. -/
theorem C8_attend_duplicate (st : PgState) (session : SessionData)
    (uid eventId : Int) (hs : session.userId = some uid) (h0 : uid ≠ 0)
    (hatt : PgStorage.isUserAttending st uid eventId = true) :
    attendRoute st session (some eventId) =
      ({ status := 400,
         body := .message "You are already registered for this event" }, st)
    ∧ (attendRoute st session (some eventId)).2.attendees = st.attendees := by
  have hmain : attendRoute st session (some eventId) =
      ({ status := 400,
         body := .message "You are already registered for this event" }, st) := by
    simp [attendRoute, truthyId, hs, hatt, h0]
  exact ⟨hmain, by rw [hmain]⟩

/-- Closed instance of `C8_attend_duplicate`: user 2 is already registered
for event 1 in `pgX`; the repeated registration is rejected with 400 and the
state survives unchanged. -/
theorem C8_witness :
    attendRoute pgX { user := some uJane, userId := some 2 } (some 1) =
      ({ status := 400,
         body := .message "You are already registered for this event" }, pgX) :=
  (C8_attend_duplicate pgX { user := some uJane, userId := some 2 } 2 1
    (by decide) (by decide) (by decide)).1

/-- C9: the login route's two failure causes — unknown username, and known
username with wrong password — produce identical HTTP responses (401 with
the shared generic message and no user payload), across any two states and
sessions, and neither touches the session. -/
theorem C9_login_indistinguishable (st1 st2 : PgState) (s1 s2 : SessionData)
    (u1 p1 u2 p2 : String) (hu1 : u1 ≠ "") (hp1 : p1 ≠ "") (hu2 : u2 ≠ "")
    (hp2 : p2 ≠ "")
    (hnone : PgStorage.getUserByUsername st1 u1 = none) (user : User)
    (hsome : PgStorage.getUserByUsername st2 u2 = some user)
    (hpw : user.password ≠ p2) :
    (loginRoute st1 s1 (some u1) (some p1)).1 =
        (loginRoute st2 s2 (some u2) (some p2)).1
    ∧ (loginRoute st1 s1 (some u1) (some p1)).1 =
        { status := 401, success := false,
          message := some "Invalid username or password", user := none }
    ∧ (loginRoute st1 s1 (some u1) (some p1)).2 = s1
    ∧ (loginRoute st2 s2 (some u2) (some p2)).2 = s2 := by
  have e1 : loginRoute st1 s1 (some u1) (some p1) =
      ({ status := 401, success := false,
         message := some "Invalid username or password", user := none }, s1) := by
    simp [loginRoute, truthyStr, hu1, hp1, hnone]
  have e2 : loginRoute st2 s2 (some u2) (some p2) =
      ({ status := 401, success := false,
         message := some "Invalid username or password", user := none }, s2) := by
    simp [loginRoute, truthyStr, hu2, hp2, hsome, hpw]
  rw [e1, e2]
  exact ⟨rfl, rfl, rfl, rfl⟩

/-- Closed instance of `C9_login_indistinguishable` on `pgX`: logging in with
an unknown username and with johndoe's name but a wrong password produce the
same 401 response. -/
theorem C9_witness :
    (loginRoute pgX { user := none, userId := none }
        (some "nosuch") (some "pw")).1 =
      (loginRoute pgX { user := none, userId := none }
        (some "johndoe") (some "wrong")).1
    ∧ (loginRoute pgX { user := none, userId := none }
        (some "nosuch") (some "pw")).1 =
      { status := 401, success := false,
        message := some "Invalid username or password", user := none } :=
  have h := C9_login_indistinguishable pgX pgX
    { user := none, userId := none } { user := none, userId := none }
    "nosuch" "pw" "johndoe" "wrong" (by decide) (by decide) (by decide)
    (by decide) (by decide) uJohn (by decide) (by decide)
  ⟨h.1, h.2.1⟩

/-- C10: in PgStorage the list operations keep an event whose `hostId` does
not resolve, giving it the placeholder host `{id: 0, name: 'Unknown',
avatar: ''}` — in `getAllEvents` always, in `getEventsByCategory` when its
category matches, in `searchEvents` when the LIKE filter matches — whereas
`getEvent` of the same id returns `none`; hence there are states where an
event is listed but unreadable individually. -/
theorem C10_placeholder_vs_notfound (pst : PgState) (e : Event)
    (he : e ∈ pst.events)
    (hh : (pst.users.filter (fun u => u.id == e.hostId)).head? = none) :
    PgStorage.enrichEvent pst e ∈ PgStorage.getAllEvents pst
    ∧ (PgStorage.enrichEvent pst e).host = ⟨0, "Unknown", ""⟩
    ∧ (∀ categoryId, categoryId ≠ "All" → e.categoryId = categoryId →
        PgStorage.enrichEvent pst e ∈
          PgStorage.getEventsByCategory pst categoryId)
    ∧ (∀ q : String,
        (likeMatch ("%" ++ q ++ "%").data e.title.data ||
         likeMatch ("%" ++ q ++ "%").data e.description.data ||
         likeMatch ("%" ++ q ++ "%").data e.location.data) = true →
        PgStorage.enrichEvent pst e ∈ PgStorage.searchEvents pst q)
    ∧ ((pst.events.filter (fun x => x.id == e.id)).head? = some e →
        PgStorage.getEvent pst e.id = none)
    ∧ ∃ st2 : PgState, ∃ x ∈ PgStorage.getAllEvents st2,
        PgStorage.getEvent st2 x.event.id = none := by
  refine ⟨?_, ?_, ?_, ?_, ?_, ?_⟩
  · rw [PgStorage.getAllEvents]
    exact List.mem_map_of_mem _ he
  · simp [PgStorage.enrichEvent, PgStorage.hostSummary, hh]
  · intro cid hcid hecat
    rw [PgStorage.getEventsByCategory, if_neg (by simp [hcid])]
    exact List.mem_map_of_mem _ (List.mem_filter.mpr ⟨he, by simp [hecat]⟩)
  · intro q hq
    exact List.mem_map_of_mem _ (List.mem_filter.mpr ⟨he, hq⟩)
  · intro hfind
    simp [PgStorage.getEvent, hfind, hh]
  · exact ⟨pgOrphan, PgStorage.enrichEvent pgOrphan evGig, by decide, by decide⟩

/-- Closed instance of `C10_placeholder_vs_notfound` on `pgOrphan`: the event
with the dangling host id is listed everywhere with the placeholder host,
yet `getEvent` of its id is `none`. -/
theorem C10_witness :
    PgStorage.enrichEvent pgOrphan evGig ∈ PgStorage.getAllEvents pgOrphan
    ∧ (PgStorage.enrichEvent pgOrphan evGig).host = ⟨0, "Unknown", ""⟩
    ∧ PgStorage.enrichEvent pgOrphan evGig ∈
        PgStorage.getEventsByCategory pgOrphan "Music"
    ∧ PgStorage.enrichEvent pgOrphan evGig ∈
        PgStorage.searchEvents pgOrphan "Gig"
    ∧ PgStorage.getEvent pgOrphan 2 = none := by
  have h := C10_placeholder_vs_notfound pgOrphan evGig (by decide) (by decide)
  exact ⟨h.1, h.2.1, h.2.2.1 "Music" (by decide) (by decide),
    h.2.2.2.1 "Gig" (by decide), h.2.2.2.2.1 (by decide)⟩
